import Mathlib

/-!
Verification of the detective-security-lake-integration custom-resource
Lambdas.  The four handlers (ResourceShareAcceptor, GlueDatabase,
GlueTables, SsmParameters) are embedded as pure Lean functions over an
explicit environment describing the responses of the remote AWS services;
each run returns a status, an optional thrown error, and the trace of
remote calls that were issued.
-/

namespace SLI

/- ### Character classes used by the JavaScript regexes -/

def isWordChar (c : Char) : Bool :=
  ('a' ≤ c && c ≤ 'z') || ('A' ≤ c && c ≤ 'Z') || ('0' ≤ c && c ≤ '9') || c = '_'

/-- Class of the regex fragment [-\w]. -/
def isDashWord (c : Char) : Bool := c = '-' || isWordChar c

/-- Class of the literal fragment [-w] that results from writing backslash-w
inside a JavaScript template literal (the backslash is consumed by the string
escape), as happens in validateIAMPrincipal of the GlueTables lambda. -/
def isDashOrW (c : Char) : Bool := c = '-' || c = 'w'

def isLowerAZ (c : Char) : Bool := 'a' ≤ c && c ≤ 'z'

def isDigitC (c : Char) : Bool := '0' ≤ c && c ≤ '9'

def isLowerDigit (c : Char) : Bool := isLowerAZ c || isDigitC c

def isBucketMid (c : Char) : Bool := isLowerDigit c || c = '-'

/-- The regex dot: any character except a newline. -/
def nonNewline (c : Char) : Bool := c ≠ '\n'

/- ### Small regex-engine building blocks -/

/-- Match a literal and return the remainder of the input. -/
def expectLit : List Char → List Char → Option (List Char)
  | [], l => some l
  | _, [] => none
  | p :: ps, c :: cs => if c = p then expectLit ps cs else none

/-- Lazy bounded repetition cls-star-up-to-fuel followed by a Bool continuation,
with full backtracking (exactly the semantics of a lazy quantifier). -/
def lazyClassRep (cls : Char → Bool) (k : List Char → Bool) : Nat → List Char → Bool
  | 0, l => k l
  | fuel + 1, l =>
    k l ||
      (match l with
       | [] => false
       | c :: rest => cls c && lazyClassRep cls k fuel rest)

/-- Lazy bounded repetition with a capture-producing continuation. -/
def lazyClassRepO {α : Type} (cls : Char → Bool) (k : List Char → Option α) :
    Nat → List Char → Option α
  | 0, l => k l
  | fuel + 1, l =>
    match k l with
    | some a => some a
    | none =>
      match l with
      | [] => none
      | c :: rest => if cls c then lazyClassRepO cls k fuel rest else none

/-- Match the greedy fragment [^:]+ followed by a colon; deterministic because
the repetition can never include the colon that must follow it. -/
def segThenColon (l : List Char) : Option (List Char) :=
  let seg := l.takeWhile (· ≠ ':')
  if seg = [] then none
  else
    match l.dropWhile (· ≠ ':') with
    | ':' :: rest => some rest
    | _ => none

def allNonNewlineNonempty (l : List Char) : Bool := !l.isEmpty && l.all nonNewline

/-- All suffixes of a list, longest first (used for unanchored regex search). -/
def tailsOf : List Char → List (List Char)
  | [] => [[]]
  | c :: rest => (c :: rest) :: tailsOf rest

/- ### The concrete grammars of the repository -/

/-- Tail of the resource-share ARN regex after the lazy repetition:
colon ram colon, then dot-plus. -/
def shareArnTail (l : List Char) : Bool :=
  match expectLit ":ram:".data l with
  | some (c :: _) => nonNewline c
  | _ => false

/-- Test of the anchored regex arn:aws[-\w]lazy-up-to-10:ram:.+ shared (with
identical source text) by all four lambdas as the ResourceShareArn validator. -/
def matchesResourceShareArn (s : String) : Bool :=
  match expectLit "arn:aws".data s.data with
  | none => false
  | some r => lazyClassRep isDashWord shareArnTail 10 r

/-- Tail of the region-capture regex on the share ARN. -/
def shareRegionTail (l : List Char) : Option String :=
  match expectLit ":ram:".data l with
  | none => none
  | some r =>
    let seg := r.takeWhile (· ≠ ':')
    if seg = [] then none
    else
      match r.dropWhile (· ≠ ':') with
      | ':' :: c :: _ => if nonNewline c then some (String.mk seg) else none
      | _ => none

/-- Capture of the region segment of a share ARN, regex
arn:aws[-\w]lazy:ram:([^:]+):.+ used by ResourceShareAcceptor and
SsmParameters. -/
def captureShareRegion (s : String) : Option String :=
  match expectLit "arn:aws".data s.data with
  | none => none
  | some r => lazyClassRepO isDashWord shareRegionTail 10 r

/-- Helper for the unanchored region grammar: after the first letter word and
at least one dash-word group, accept a dash-digit ending or consume one more
dash-letters group. -/
def regionMore : Nat → List Char → Bool
  | 0, _ => false
  | fuel + 1, l =>
    match l with
    | '-' :: c :: rest =>
      if isDigitC c then true
      else isLowerAZ c && regionMore fuel (rest.dropWhile isLowerAZ)
    | _ => false

/-- After the initial letter run: require at least one dash-letters group and
then delegate to regionMore. -/
def regionAfterWord (fuel : Nat) (l : List Char) : Bool :=
  match l with
  | '-' :: c :: rest => isLowerAZ c && regionMore fuel (rest.dropWhile isLowerAZ)
  | _ => false

def regionStartsAt (l : List Char) : Bool :=
  !(l.takeWhile isLowerAZ).isEmpty && regionAfterWord l.length (l.dropWhile isLowerAZ)

/-- Unanchored test of the region grammar [a-z]+(-[a-z]+)+-\d used by
validateRegion in ResourceShareAcceptor and SsmParameters. -/
def regionTest (s : String) : Bool := (tailsOf s.data).any regionStartsAt

/-- Anchored test of the bucket grammar, first and last character lowercase
alphanumeric, 1 to 61 middle characters also allowing dashes. -/
def bucketTest (s : String) : Bool :=
  let l := s.data
  decide (3 ≤ l.length) && decide (l.length ≤ 63) &&
    (match l with
     | c :: _ => isLowerDigit c
     | [] => false) &&
    (match l.getLast? with
     | some c => isLowerDigit c
     | none => false) &&
    ((l.drop 1).dropLast.all isBucketMid)

/-- Unanchored test of the pattern dot-plus: the string holds at least one
character other than a newline. -/
def dotPlusTest (s : String) : Bool := s.data.any nonNewline

/-- Tail of the database-name capture regex: colon glue colon, two colon-free
segments, the literal database-slash, then the captured remainder. -/
def databaseNameTail (l : List Char) : Option String := do
  let r1 ← expectLit ":glue:".data l
  let r2 ← segThenColon r1
  let r3 ← segThenColon r2
  let r4 ← expectLit "database/".data r3
  if allNonNewlineNonempty r4 then some (String.mk r4) else none

/-- Capture of DATABASE_NAME_CAPTURE_REGEX, the anchored regex
arn:aws[-\w]lazy:glue:[^:]+:[^:]+:database-slash(.+) used by the GlueTables
and SsmParameters lambdas. -/
def captureDatabaseName (s : String) : Option String :=
  match expectLit "arn:aws".data s.data with
  | none => none
  | some r => lazyClassRepO isDashWord databaseNameTail 10 r

/-- Tail of the table-name capture regex. -/
def tableNameTail (l : List Char) : Option String := do
  let r1 ← expectLit ":glue:".data l
  let r2 ← segThenColon r1
  let r3 ← segThenColon r2
  let r4 ← expectLit "table/".data r3
  let db := r4.takeWhile (· ≠ '/')
  if db = [] then none
  else
    match r4.dropWhile (· ≠ '/') with
    | '/' :: rest => if allNonNewlineNonempty rest then some (String.mk rest) else none
    | _ => none

/-- Capture of TABLE_NAME_CAPTURE_REGEX used by the SsmParameters lambda. -/
def captureTableName (s : String) : Option String :=
  match expectLit "arn:aws".data s.data with
  | none => none
  | some r => lazyClassRepO isDashWord tableNameTail 10 r

/-- Tail of ACCOUNT_ID_FROM_STACK_REGEX after the lazy repetition: colon
cloudformation colon, a colon-free segment, exactly twelve digits (captured),
a colon, and a nonempty remainder. -/
def accountIdTail (l : List Char) : Option String := do
  let r1 ← expectLit ":cloudformation:".data l
  let r2 ← segThenColon r1
  let ds := r2.take 12
  if decide (ds.length = 12) && ds.all isDigitC then
    match r2.drop 12 with
    | ':' :: rest => if allNonNewlineNonempty rest then some (String.mk ds) else none
    | _ => none
  else none

/-- Capture of the account id from a CloudFormation stack id, used by the
GlueTables lambda. -/
def parseAccountIdFromStack (s : String) : Option String :=
  match expectLit "arn:aws".data s.data with
  | none => none
  | some r => lazyClassRepO isDashWord accountIdTail 10 r

/-- Unanchored tail for the IAM-principal check: the interpolated literal
colon iam colon colon account colon, then dot-plus. -/
def iamTail (acct : String) (l : List Char) : Bool :=
  match expectLit (":iam::" ++ acct ++ ":").data l with
  | some (c :: _) => nonNewline c
  | _ => false

def iamStartsAt (acct : String) (l : List Char) : Bool :=
  match expectLit "arn:aws".data l with
  | none => false
  | some r => lazyClassRep isDashOrW (iamTail acct) 10 r

/-- Unanchored test of the principal pattern built in validateIAMPrincipal of
the GlueTables lambda; because the pattern is assembled in a template literal
the word class degenerates to dash-or-letter-w (see isDashOrW). -/
def iamPrincipalTest (acct p : String) : Bool := (tailsOf p.data).any (iamStartsAt acct)

/-- Search of dot-plus colon database slash inside the GlueDatabase test
regex: at each position either the literal starts here (followed by one more
matchable character) or the current character is absorbed by the dot-plus. -/
def dbLitSearch : List Char → Bool
  | [] => false
  | c :: rest =>
    (match expectLit ":database/".data (c :: rest) with
     | some (d :: _) => nonNewline d
     | _ => false) ||
    (nonNewline c && dbLitSearch rest)

def glueArnTail (l : List Char) : Bool :=
  match l with
  | [] => false
  | c :: rest => nonNewline c && dbLitSearch rest

def glueTailAfterRep (l : List Char) : Bool :=
  match expectLit ":glue:".data l with
  | none => false
  | some r => glueArnTail r

/-- Test of the GlueDatabase lambda regex arn:aws[-\w]lazy:glue:.+:database-slash.+ -/
def glueDatabaseArnTest (s : String) : Bool :=
  match expectLit "arn:aws".data s.data with
  | none => false
  | some r => lazyClassRep isDashWord glueTailAfterRep 10 r

/- ### JavaScript helpers -/

/-- Split on a separator character, with the exact semantics of the
JavaScript string split used by the GlueDatabase lambda. -/
def splitOnCharAux (sep : Char) : List Char → List Char → List String
  | [], acc => [String.mk acc.reverse]
  | c :: rest, acc =>
    if c = sep then String.mk acc.reverse :: splitOnCharAux sep rest []
    else splitOnCharAux sep rest (c :: acc)

def jsSplit (sep : Char) (s : String) : List String := splitOnCharAux sep s.data []

/-- Array join with a separator, as used for the table-name parameter. -/
def jsJoin (sep : String) : List String → String
  | [] => ""
  | [x] => x
  | x :: y :: xs => x ++ sep ++ jsJoin sep (y :: xs)

/-- First-occurrence deduplication, the semantics of spreading a JavaScript
Set built from a list (insertion order, first occurrence kept). -/
def dedupAcc (seen : List String) : List String → List String
  | [] => []
  | x :: xs => if x ∈ seen then dedupAcc seen xs else x :: dedupAcc (x :: seen) xs

def jsSetList (xs : List String) : List String := dedupAcc [] xs

theorem mem_dedupAcc (x : String) : ∀ (l seen : List String),
    x ∈ dedupAcc seen l ↔ x ∈ l ∧ x ∉ seen := by
  intro l
  induction l with
  | nil => intro seen; simp [dedupAcc]
  | cons y ys ih =>
    intro seen
    by_cases hy : y ∈ seen
    · simp only [dedupAcc, if_pos hy, ih, List.mem_cons]
      constructor
      · rintro ⟨h1, h2⟩; exact ⟨Or.inr h1, h2⟩
      · rintro ⟨h1 | h1, h2⟩
        · exact absurd (h1 ▸ hy) h2
        · exact ⟨h1, h2⟩
    · simp only [dedupAcc, if_neg hy, List.mem_cons, ih]
      constructor
      · rintro (rfl | ⟨h1, h2⟩)
        · exact ⟨Or.inl rfl, hy⟩
        · exact ⟨Or.inr h1, fun hx => h2 (Or.inr hx)⟩
      · rintro ⟨rfl | h1, h2⟩
        · exact Or.inl rfl
        · by_cases hxy : x = y
          · exact Or.inl hxy
          · exact Or.inr ⟨h1, fun hm => hm.elim hxy h2⟩

theorem mem_jsSetList (x : String) (l : List String) : x ∈ jsSetList l ↔ x ∈ l := by
  simp [jsSetList, mem_dedupAcc]

theorem nodup_dedupAcc : ∀ (l seen : List String), (dedupAcc seen l).Nodup := by
  intro l
  induction l with
  | nil => intro seen; simp [dedupAcc]
  | cons y ys ih =>
    intro seen
    by_cases hy : y ∈ seen
    · simpa [dedupAcc, if_pos hy] using ih seen
    · simp only [dedupAcc, if_neg hy, List.nodup_cons]
      refine ⟨fun hmem => ?_, ih (y :: seen)⟩
      exact ((mem_dedupAcc y ys (y :: seen)).1 hmem).2 (List.mem_cons_self y seen)

theorem nodup_jsSetList (l : List String) : (jsSetList l).Nodup := nodup_dedupAcc l []

theorem jsSetList_length (l : List String) : (jsSetList l).length = l.toFinset.card := by
  have h1 : (jsSetList l).toFinset = l.toFinset := by
    apply Finset.ext
    intro a
    simp [List.mem_toFinset, mem_jsSetList]
  calc (jsSetList l).length = (jsSetList l).toFinset.card :=
        (List.toFinset_card_of_nodup (nodup_jsSetList l)).symm
    _ = l.toFinset.card := by rw [h1]

/- ### Common result model -/

/-- Outcome reported by a handler back to CloudFormation. -/
inductive Status where
  | success
  | failed
deriving DecidableEq, Repr

/-- Values thrown inside the lambdas: plain Error objects with a message,
the three SDK exception classes that the code tests with instanceof, and
unclassified provider errors injected by the environment. -/
inductive JsErr where
  | error (msg : String)
  | ramAlreadyAccepted
  | glueAlreadyExists
  | ssmAlreadyExists (name : String)
  | provider (msg : String)
deriving DecidableEq, Repr

/-- Shared ResourceShareArn validator: all four lambdas test the same regex
source and throw the same message. -/
def validateShareArnE (arn : String) : Except JsErr Unit :=
  if matchesResourceShareArn arn then Except.ok () else Except.error (JsErr.error "Invalid ResourceShareArn.")

/- ### ResourceShareAcceptor lambda -/

/-- Lifecycle state of a resource-share invitation (the SDK enum). -/
inductive InvStatus where
  | pending
  | accepted
  | rejected
  | expired
deriving DecidableEq, Repr

structure Invitation where
  status : InvStatus
  arn : String
deriving DecidableEq, Repr

/-- Remote responses available to one ResourceShareAcceptor invocation:
the invitation lookup, the resource listing used on the no-invitation path,
and the outcome of an accept call (none means success; ramAlreadyAccepted is
the provider error that the code downgrades). -/
structure SAEnv where
  invitations : Except JsErr (List Invitation)
  resources : Except JsErr (List String)
  acceptResult : Option JsErr

inductive SACall where
  | getInvitations
  | listResources
  | accept (invitationArn : String)
deriving DecidableEq, Repr

def acceptCount (tr : List SACall) : Nat :=
  (tr.filter fun c => match c with | SACall.accept _ => true | _ => false).length

/-- Embedding of handleInvitation together with acceptInvitation: branch on
the invitation state; on pending issue the accept call and downgrade the
already-accepted provider error to success. -/
def handleInvitationRun (env : SAEnv) (st : InvStatus) (iarn : String)
    (tr : List SACall) : Status × Option JsErr × List SACall :=
  match st with
  | InvStatus.pending =>
    match env.acceptResult with
    | none => (Status.success, none, tr ++ [SACall.accept iarn])
    | some JsErr.ramAlreadyAccepted => (Status.success, none, tr ++ [SACall.accept iarn])
    | some e => (Status.failed, some e, tr ++ [SACall.accept iarn])
  | InvStatus.expired => (Status.failed, some (JsErr.error "Invitation has expired."), tr)
  | InvStatus.accepted => (Status.success, none, tr)
  | InvStatus.rejected => (Status.failed, some (JsErr.error "Invitation has already been rejected."), tr)

/-- Embedding of the branch taken when the invitation lookup yields no usable
invitation: resourceShareAlreadyAccepted queries the listing; a non-empty
listing is treated as state accepted, an empty one throws not-found. -/
def saFallback (env : SAEnv) (tr : List SACall) : Status × Option JsErr × List SACall :=
  match env.resources with
  | Except.error e => (Status.failed, some e, tr ++ [SACall.listResources])
  | Except.ok [] =>
    (Status.failed, some (JsErr.error "Invalid ResourceShareArn: ResourceShareInvitationArn not found."),
      tr ++ [SACall.listResources])
  | Except.ok (_ :: _) => handleInvitationRun env InvStatus.accepted "" (tr ++ [SACall.listResources])

/-- Embedding of the ResourceShareAcceptor startCreate path: validate the ARN,
extract and validate the region, look the invitation up, then handle it; any
thrown error becomes a failed result. -/
def saCreate (env : SAEnv) (arnInput : String) : Status × Option JsErr × List SACall :=
  if ¬ matchesResourceShareArn arnInput then
    (Status.failed, some (JsErr.error "Invalid ResourceShareArn."), [])
  else
    match captureShareRegion arnInput with
    | none => (Status.failed, some (JsErr.error "Could not parse region from resource share arn."), [])
    | some r =>
      if ¬ regionTest r then
        (Status.failed, some (JsErr.error ("Invalid region: " ++ r ++ ".")), [])
      else
        match env.invitations with
        | Except.error e => (Status.failed, some e, [SACall.getInvitations])
        | Except.ok [] => saFallback env [SACall.getInvitations]
        | Except.ok (inv :: _) =>
          if inv.arn ≠ "" then handleInvitationRun env inv.status inv.arn [SACall.getInvitations]
          else saFallback env [SACall.getInvitations]

/- ### GlueDatabase lambda (CatalogDatabaseProvisioner) -/

/-- Remote responses for one GlueDatabase invocation; the local Glue catalog
is threaded explicitly as the list of existing database names, and glueOther
injects an unclassified provider failure of the create call. -/
structure CDEnv where
  listDatabases : Except JsErr (List String)
  glueOther : Option String

inductive CDCall where
  | listResources
  | createDatabase (catalogId : String) (name : Option String)
deriving DecidableEq, Repr

/-- Embedding of getSharedGlueDatabaseArn: list the shared glue databases and
return the first ARN, throwing when the listing is empty. -/
def getSharedGlueDatabaseArn (env : CDEnv) : Except JsErr String :=
  match env.listDatabases with
  | Except.error e => Except.error e
  | Except.ok [] => Except.error (JsErr.error "Found no resources associated with resource share ARN.")
  | Except.ok (a :: _) => Except.ok a

/-- Embedding of getDatabaseArnParts: test the loose glue-ARN regex, then
split on colons; segment four is the owning account and the database name is
the piece after the first slash of segment five.  A missing segment five
reproduces the TypeError the JavaScript raises; a missing slash piece yields
none, the JavaScript undefined. -/
def getDatabaseArnParts (arn : String) : Except JsErr (String × Option String) :=
  if glueDatabaseArnTest arn then
    let parts := jsSplit ':' arn
    match parts[4]?, parts[5]? with
    | some acct, some seg => Except.ok (acct, (jsSplit '/' seg)[1]?)
    | _, _ => Except.error (JsErr.error "TypeError: cannot read properties of undefined.")
  else
    Except.error (JsErr.error ("Glue database discovered via RAM does not match expected ARN format: " ++ arn ++ "."))

/-- Provider semantics of CreateDatabase on the local catalog: an injected
unclassified failure, a missing name rejected by the service, an existing
name raising AlreadyExistsException, or insertion of the new name. -/
def glueCreateDatabase (env : CDEnv) (dbs : List String) (nameOpt : Option String) :
    Except JsErr Unit × List String :=
  match env.glueOther with
  | some m => (Except.error (JsErr.provider m), dbs)
  | none =>
    match nameOpt with
    | none => (Except.error (JsErr.provider "ValidationException: database name missing."), dbs)
    | some n => if n ∈ dbs then (Except.error JsErr.glueAlreadyExists, dbs) else (Except.ok (), n :: dbs)

/-- Embedding of createGlueDatabase: issue the create and swallow only the
AlreadyExistsException (the idempotent-create downgrade). -/
def createGlueDatabase (env : CDEnv) (dbs : List String) (nameOpt : Option String) :
    Except JsErr Unit × List String :=
  match glueCreateDatabase env dbs nameOpt with
  | (Except.error JsErr.glueAlreadyExists, dbs2) => (Except.ok (), dbs2)
  | other => other

/-- Embedding of the GlueDatabase startCreate path.  The result carries the
status, the physical resource id (the database name on success), the thrown
error, the remote-call trace, and the catalog state after the run. -/
def cdStartCreate (env : CDEnv) (arnInput : String) (dbs : List String) :
    Status × Option String × Option JsErr × List CDCall × List String :=
  match validateShareArnE arnInput with
  | Except.error e => (Status.failed, none, some e, [], dbs)
  | Except.ok _ =>
    match getSharedGlueDatabaseArn env with
    | Except.error e => (Status.failed, none, some e, [CDCall.listResources], dbs)
    | Except.ok a =>
      match getDatabaseArnParts a with
      | Except.error e => (Status.failed, none, some e, [CDCall.listResources], dbs)
      | Except.ok (acct, nameOpt) =>
        match createGlueDatabase env dbs nameOpt with
        | (Except.error e, dbs2) =>
          (Status.failed, none, some e, [CDCall.listResources, CDCall.createDatabase acct nameOpt], dbs2)
        | (Except.ok _, dbs2) =>
          (Status.success, nameOpt, none, [CDCall.listResources, CDCall.createDatabase acct nameOpt], dbs2)

/- ### GlueTables lambda (TablePermissionGranter) -/

/-- A JavaScript value supplied as the LakeFormationPrincipals property:
either an array of strings or anything that fails the Array.isArray check. -/
inductive JVal where
  | arr (xs : List String)
  | notArr
deriving DecidableEq, Repr

/-- The event fields the GlueTables create path reads. -/
structure GTEvent where
  resourceShareArn : String
  principals : JVal
  lambdaRoleArn : String
  stackId : String

/-- The global Lake Formation settings: the administrator list plus all the
other fields of the settings object, which the code copies unchanged via an
object spread; those other fields are abstracted as one value of type ρ. -/
structure DataLakeSettings (ρ : Type) where
  admins : List String
  rest : ρ
deriving DecidableEq, Repr

/-- Remote responses for one GlueTables invocation.  Put outcomes are indexed
by the position of the put call in the run (the code issues at most two) and
grant outcomes are keyed by the granted principal, which is unambiguous
because the loop grants each principal at most once. -/
structure GTEnv (ρ : Type) where
  listDatabases : Except JsErr (List String)
  getSettings : Except JsErr (DataLakeSettings ρ)
  putResult : Nat → Option JsErr
  grantResult : String → Option JsErr

inductive GTCall (ρ : Type) where
  | listResources
  | getSettings
  | putSettings (s : DataLakeSettings ρ)
  | grant (principal : String) (databaseName : String)
deriving DecidableEq, Repr

def gtPuts {ρ : Type} (tr : List (GTCall ρ)) : List (DataLakeSettings ρ) :=
  tr.filterMap fun c => match c with | GTCall.putSettings s => some s | _ => none

def gtGrants {ρ : Type} (tr : List (GTCall ρ)) : List (String × String) :=
  tr.filterMap fun c => match c with | GTCall.grant p d => some (p, d) | _ => none

/-- Embedding of getAccountId: capture the account from the stack id. -/
def getAccountId (stackId : String) : Except JsErr String :=
  match parseAccountIdFromStack stackId with
  | some a => Except.ok a
  | none => Except.error (JsErr.error "Could not parse account id from stack ID.")

/-- Embedding of validateIAMPrincipal. -/
def validateIAMPrincipal (acct p : String) : Except JsErr Unit :=
  if iamPrincipalTest acct p then Except.ok ()
  else Except.error (JsErr.error ("Invalid IAM principal, or IAM principal does not belong to account " ++ acct ++ "."))

def validatePrincipalList (acct : String) : List String → Except JsErr Unit
  | [] => Except.ok ()
  | p :: ps =>
    match validateIAMPrincipal acct p with
    | Except.error e => Except.error e
    | Except.ok _ => validatePrincipalList acct ps

/-- Embedding of validatePrincipals: reject a non-array, then validate each
element in order.  An empty array passes (the loop body never runs). -/
def validatePrincipals (v : JVal) (acct : String) : Except JsErr Unit :=
  match v with
  | JVal.notArr => Except.error (JsErr.error "LakeFormationPrincipals is not an array.")
  | JVal.arr ps => validatePrincipalList acct ps

/-- Embedding of getLakeFormationDataLakePrincipals: parse the account from
the stack id, validate the supplied principals, deduplicate via a Set. -/
def getLakeFormationDataLakePrincipals (ev : GTEvent) : Except JsErr (List String) :=
  match getAccountId ev.stackId with
  | Except.error e => Except.error e
  | Except.ok acct =>
    match validatePrincipals ev.principals acct with
    | Except.error e => Except.error e
    | Except.ok _ =>
      match ev.principals with
      | JVal.arr ps => Except.ok (jsSetList ps)
      | JVal.notArr => Except.error (JsErr.error "LakeFormationPrincipals is not an array.")

/-- Embedding of getDatabaseName on top of the listing response: first ARN of
the glue:database listing, parsed by the database-name capture regex. -/
def gtGetDatabaseName (listing : Except JsErr (List String)) : Except JsErr String :=
  match listing with
  | Except.error e => Except.error e
  | Except.ok [] => Except.error (JsErr.error "Found no database associated with resource share ARN.")
  | Except.ok (a :: _) =>
    match captureDatabaseName a with
    | some n => Except.ok n
    | none => Except.error (JsErr.error "Could not parse database from database arn.")

/-- Embedding of buildDataLakeAdmins: the admins already present followed by
the new principals, first occurrences kept (JavaScript Set spread). -/
def buildDataLakeAdmins (existing newPrincipals : List String) : List String :=
  jsSetList (existing ++ newPrincipals)

/-- Embedding of buildDataLakeSettings: spread the existing settings and
replace only the administrator list. -/
def buildDataLakeSettings {ρ : Type} (s : DataLakeSettings ρ) (ps : List String) :
    DataLakeSettings ρ :=
  { s with admins := buildDataLakeAdmins s.admins ps }

/-- The per-principal grant loop of grantLakeFormationPermission: issue the
grant calls in sequence, stopping at the first provider failure. -/
def grantLoop {ρ : Type} (env : GTEnv ρ) (db : String) :
    List String → List (GTCall ρ) → Except JsErr Unit × List (GTCall ρ)
  | [], tr => (Except.ok (), tr)
  | p :: ps, tr =>
    match env.grantResult p with
    | none => grantLoop env db ps (tr ++ [GTCall.grant p db])
    | some e => (Except.error e, tr ++ [GTCall.grant p db])

/-- Embedding of the GlueTables startCreate path: validate the ARN, compute
the deduplicated principals, resolve the database name, read the settings,
write the temporarily self-elevated settings, grant to every principal, then
restore the desired end state without the executing role. -/
def gtStartCreate {ρ : Type} (env : GTEnv ρ) (ev : GTEvent) :
    Status × Option JsErr × List (GTCall ρ) :=
  match validateShareArnE ev.resourceShareArn with
  | Except.error e => (Status.failed, some e, [])
  | Except.ok _ =>
    match getLakeFormationDataLakePrincipals ev with
    | Except.error e => (Status.failed, some e, [])
    | Except.ok ps =>
      match gtGetDatabaseName env.listDatabases with
      | Except.error e => (Status.failed, some e, [GTCall.listResources])
      | Except.ok dbName =>
        match env.getSettings with
        | Except.error e => (Status.failed, some e, [GTCall.listResources, GTCall.getSettings])
        | Except.ok existing =>
          match env.putResult 0 with
          | some e =>
            (Status.failed, some e,
              [GTCall.listResources, GTCall.getSettings,
               GTCall.putSettings (buildDataLakeSettings (buildDataLakeSettings existing ps) [ev.lambdaRoleArn])])
          | none =>
            match grantLoop env dbName ps
                [GTCall.listResources, GTCall.getSettings,
                 GTCall.putSettings (buildDataLakeSettings (buildDataLakeSettings existing ps) [ev.lambdaRoleArn])] with
            | (Except.error e, tr4) => (Status.failed, some e, tr4)
            | (Except.ok _, tr4) =>
              match env.putResult 1 with
              | some e =>
                (Status.failed, some e, tr4 ++ [GTCall.putSettings (buildDataLakeSettings existing ps)])
              | none =>
                (Status.success, none, tr4 ++ [GTCall.putSettings (buildDataLakeSettings existing ps)])

/- ### SsmParameters lambda (ParameterPublisher) -/

/-- The five fixed parameter names owned by the workflow. -/
def stackIdParamName : String := "/Detective/SLI/StackId"

def shareArnParamName : String := "/Detective/SLI/ResourceShareArn"

def athenaBucketParamName : String := "/Detective/SLI/S3Bucket"

def databaseNameParamName : String := "/Detective/SLI/DatabaseName"

def tableNamesParamName : String := "/Detective/SLI/TableNames"

/-- The fixed batch passed to DeleteParameters, in source order. -/
def ppFiveNames : List String :=
  [stackIdParamName, shareArnParamName, athenaBucketParamName, databaseNameParamName, tableNamesParamName]

/-- The event fields the SsmParameters handler reads (all from
ResourceProperties; StackId here is the property, not the envelope field). -/
structure PPEvent where
  resourceShareArn : String
  dtRegion : String
  athenaResultsBucket : String
  stackIdProp : String

/-- Outcome of one PutParameter call. -/
inductive PutOutcome where
  | ok
  | alreadyExists
  | err (msg : String)
deriving DecidableEq, Repr

/-- Remote responses for one SsmParameters invocation.  Put outcomes are
keyed by parameter name (each of the five distinct names is written at most
once); stackIdParam is the best-effort GetParameter result, none covering
both a missing parameter and any lookup error. -/
structure PPEnv where
  listDatabases : Except JsErr (List String)
  listTables : Except JsErr (List String)
  putResult : String → PutOutcome
  stackIdParam : Option String
  deleteResult : Option JsErr

inductive PPCall where
  | listResources (resourceType : String)
  | putParameter (name : String) (value : String)
  | getParameter (name : String)
  | deleteParameters (names : List String)
deriving DecidableEq, Repr

/-- The error-log line emitted when a colliding name has a discoverable
stack id. -/
def alreadyExistsWithStackMsg (name sid : String) : String :=
  "SSM Parameter " ++ name ++ " already exists, another stack with stack ID " ++ sid ++
    " created by this template already exists, please delete it first."

/-- The error-log line emitted when the best-effort stack-id lookup finds
nothing. -/
def alreadyExistsUnknownMsg (name : String) : String :=
  "SSM Parameter " ++ name ++
    " already exists, another stack created by this template could already exist, please delete the existing stack before creating a new one."

/-- Embedding of saveParameter: issue the put; on a ParameterAlreadyExists
error run the best-effort stack-id lookup, log the diagnostic, and rethrow;
any other provider error is rethrown untouched. -/
def saveParameter (env : PPEnv) (name value : String) (tr : List PPCall) (logs : List String) :
    Except JsErr Unit × List PPCall × List String :=
  match env.putResult name with
  | PutOutcome.ok => (Except.ok (), tr ++ [PPCall.putParameter name value], logs)
  | PutOutcome.err m => (Except.error (JsErr.provider m), tr ++ [PPCall.putParameter name value], logs)
  | PutOutcome.alreadyExists =>
    match env.stackIdParam with
    | some sid =>
      (Except.error (JsErr.ssmAlreadyExists name),
        tr ++ [PPCall.putParameter name value, PPCall.getParameter stackIdParamName],
        logs ++ [alreadyExistsWithStackMsg name sid])
    | none =>
      (Except.error (JsErr.ssmAlreadyExists name),
        tr ++ [PPCall.putParameter name value, PPCall.getParameter stackIdParamName],
        logs ++ [alreadyExistsUnknownMsg name])

/-- The sequential chain of the five saveParameter calls. -/
def savePairs (env : PPEnv) :
    List (String × String) → List PPCall → List String →
      Except JsErr Unit × List PPCall × List String
  | [], tr, logs => (Except.ok (), tr, logs)
  | (n, v) :: rest, tr, logs =>
    match saveParameter env n v tr logs with
    | (Except.ok _, tr2, logs2) => savePairs env rest tr2 logs2
    | (Except.error e, tr2, logs2) => (Except.error e, tr2, logs2)

/-- First non-ok put outcome along the planned sequence of writes, with the
name it occurs at. -/
def firstBadPut (env : PPEnv) : List (String × String) → Option (String × PutOutcome)
  | [] => none
  | (n, _) :: rest =>
    match env.putResult n with
    | PutOutcome.ok => firstBadPut env rest
    | o => some (n, o)

/-- Embedding of getTableNames on top of the listing response: every table
ARN must yield a captured name, in order. -/
def ppTableNamesFrom : List String → Except JsErr (List String)
  | [] => Except.ok []
  | a :: rest =>
    match captureTableName a with
    | none => Except.error (JsErr.error "Could not parse table name from table arn.")
    | some n =>
      match ppTableNamesFrom rest with
      | Except.error e => Except.error e
      | Except.ok ns => Except.ok (n :: ns)

def getTableNames (env : PPEnv) : Except JsErr (List String) :=
  match env.listTables with
  | Except.error e => Except.error e
  | Except.ok [] => Except.error (JsErr.error "Found no table associated with resource share ARN.")
  | Except.ok arns => ppTableNamesFrom arns

/-- The five name-value pairs written by createParameters, in source order. -/
def ppPairs (ev : PPEvent) (dbName : String) (tblNames : List String) : List (String × String) :=
  [(stackIdParamName, ev.stackIdProp),
   (shareArnParamName, ev.resourceShareArn),
   (athenaBucketParamName, ev.athenaResultsBucket),
   (databaseNameParamName, dbName),
   (tableNamesParamName, jsJoin "," tblNames)]

/-- Embedding of the createParameters path: validate the share ARN, the
region extracted from it, the DTRegion, the bucket and the stack id; then
resolve the database and table names from the share listing and write the
five parameters in order.  The result carries the status, the thrown error,
the remote-call trace, and the error-log lines. -/
def ppCreate (env : PPEnv) (ev : PPEvent) :
    Status × Option JsErr × List PPCall × List String :=
  if ¬ matchesResourceShareArn ev.resourceShareArn then
    (Status.failed, some (JsErr.error "Invalid ResourceShareArn."), [], [])
  else
    match captureShareRegion ev.resourceShareArn with
    | none => (Status.failed, some (JsErr.error "Could not parse region from resource share arn."), [], [])
    | some r =>
      if ¬ regionTest r then
        (Status.failed, some (JsErr.error ("Invalid region: " ++ r ++ ".")), [], [])
      else if ¬ regionTest ev.dtRegion then
        (Status.failed, some (JsErr.error ("Invalid region: " ++ ev.dtRegion ++ ".")), [], [])
      else if ¬ bucketTest ev.athenaResultsBucket then
        (Status.failed, some (JsErr.error "Invalid bucket name."), [], [])
      else if ¬ dotPlusTest ev.stackIdProp then
        (Status.failed, some (JsErr.error "Invalid stackId."), [], [])
      else
        match gtGetDatabaseName env.listDatabases with
        | Except.error e => (Status.failed, some e, [PPCall.listResources "glue:database"], [])
        | Except.ok dbName =>
          match getTableNames env with
          | Except.error e =>
            (Status.failed, some e,
              [PPCall.listResources "glue:database", PPCall.listResources "glue:table"], [])
          | Except.ok tblNames =>
            match savePairs env (ppPairs ev dbName tblNames)
                [PPCall.listResources "glue:database", PPCall.listResources "glue:table"] [] with
            | (Except.ok _, tr3, logs) => (Status.success, none, tr3, logs)
            | (Except.error e, tr3, logs) => (Status.failed, some e, tr3, logs)

/-- Embedding of the deleteParameters path: validate DTRegion, then issue a
single batch delete of the five fixed names; a provider failure of the
delete propagates as a failed result. -/
def ppDelete (env : PPEnv) (ev : PPEvent) : Status × Option JsErr × List PPCall :=
  if ¬ regionTest ev.dtRegion then
    (Status.failed, some (JsErr.error ("Invalid region: " ++ ev.dtRegion ++ ".")), [])
  else
    match env.deleteResult with
    | none => (Status.success, none, [PPCall.deleteParameters ppFiveNames])
    | some e => (Status.failed, some e, [PPCall.deleteParameters ppFiveNames])

/- ### Supporting lemmas -/

@[simp] theorem gtPuts_nil {ρ : Type} : gtPuts ([] : List (GTCall ρ)) = [] := rfl

@[simp] theorem gtPuts_append {ρ : Type} (a b : List (GTCall ρ)) :
    gtPuts (a ++ b) = gtPuts a ++ gtPuts b := by
  simp [gtPuts]

@[simp] theorem gtGrants_nil {ρ : Type} : gtGrants ([] : List (GTCall ρ)) = [] := rfl

@[simp] theorem gtGrants_append {ρ : Type} (a b : List (GTCall ρ)) :
    gtGrants (a ++ b) = gtGrants a ++ gtGrants b := by
  simp [gtGrants]

theorem gtPuts_map_grant {ρ : Type} (db : String) (ps : List String) :
    gtPuts ((ps.map fun p => GTCall.grant p db) : List (GTCall ρ)) = [] := by
  induction ps with
  | nil => rfl
  | cons p ps ih =>
    rw [List.map_cons, ← List.singleton_append, gtPuts_append, ih]
    rfl

theorem gtGrants_map_grant {ρ : Type} (db : String) (ps : List String) :
    gtGrants ((ps.map fun p => GTCall.grant p db) : List (GTCall ρ)) = ps.map (fun p => (p, db)) := by
  induction ps with
  | nil => rfl
  | cons p ps ih => simpa [gtGrants] using ih

theorem grantLoop_puts {ρ : Type} (env : GTEnv ρ) (db : String) :
    ∀ (ps : List String) (tr tr2 : List (GTCall ρ)) (r : Except JsErr Unit),
      grantLoop env db ps tr = (r, tr2) → gtPuts tr2 = gtPuts tr := by
  intro ps
  induction ps with
  | nil =>
    intro tr tr2 r h
    simp only [grantLoop, Prod.mk.injEq] at h
    rw [← h.2]
  | cons p ps ih =>
    intro tr tr2 r h
    simp only [grantLoop] at h
    cases hp : env.grantResult p with
    | none =>
      rw [hp] at h
      have := ih (tr ++ [GTCall.grant p db]) tr2 r h
      simpa [gtPuts] using this
    | some e =>
      rw [hp] at h
      simp only [Prod.mk.injEq] at h
      rw [← h.2]
      simp [gtPuts]

theorem grantLoop_ok {ρ : Type} (env : GTEnv ρ) (db : String) :
    ∀ (ps : List String) (tr tr2 : List (GTCall ρ)) (u : Unit),
      grantLoop env db ps tr = (Except.ok u, tr2) →
        tr2 = tr ++ ps.map (fun p => GTCall.grant p db) := by
  intro ps
  induction ps with
  | nil =>
    intro tr tr2 u h
    simp only [grantLoop, Prod.mk.injEq] at h
    simp [← h.2]
  | cons p ps ih =>
    intro tr tr2 u h
    simp only [grantLoop] at h
    cases hp : env.grantResult p with
    | none =>
      rw [hp] at h
      have := ih (tr ++ [GTCall.grant p db]) tr2 u h
      simp [this, List.append_assoc]
    | some e =>
      rw [hp] at h
      simp at h

theorem principalsOf_arr (ev : GTEvent) (ps l : List String)
    (h : getLakeFormationDataLakePrincipals ev = Except.ok ps)
    (hl : ev.principals = JVal.arr l) : ps = jsSetList l := by
  unfold getLakeFormationDataLakePrincipals at h
  rw [hl] at h
  split at h
  · simp at h
  · split at h
    · simp at h
    · simp only [Except.ok.injEq] at h
      exact h.symm

/-- Shape of a successful GlueTables create run: the listing, the settings
read, the two settings writes and the per-principal grants, in order. -/
theorem gtStartCreate_success_shape {ρ : Type} (env : GTEnv ρ) (ev : GTEvent)
    (tr : List (GTCall ρ))
    (hrun : gtStartCreate env ev = (Status.success, none, tr)) :
    ∃ ps dbName s0,
      getLakeFormationDataLakePrincipals ev = Except.ok ps ∧
      gtGetDatabaseName env.listDatabases = Except.ok dbName ∧
      env.getSettings = Except.ok s0 ∧
      tr = [GTCall.listResources, GTCall.getSettings,
              GTCall.putSettings (buildDataLakeSettings (buildDataLakeSettings s0 ps) [ev.lambdaRoleArn])]
            ++ ps.map (fun p => GTCall.grant p dbName)
            ++ [GTCall.putSettings (buildDataLakeSettings s0 ps)] := by
  unfold gtStartCreate at hrun
  split at hrun
  · simp at hrun
  · split at hrun
    · simp at hrun
    · rename_i ps hpsok
      split at hrun
      · simp at hrun
      · rename_i dbName hdb
        split at hrun
        · simp at hrun
        · rename_i existing hget
          split at hrun
          · simp at hrun
          · split at hrun
            · simp at hrun
            · rename_i u tr4 hloop
              split at hrun
              · simp at hrun
              · simp only [Prod.mk.injEq] at hrun
                obtain ⟨-, -, htr⟩ := hrun
                have hshape := grantLoop_ok env dbName ps _ _ u hloop
                exact ⟨ps, dbName, existing, hpsok, hdb, hget, by rw [← htr, hshape]⟩

/- ### Claim theorems for the GlueTables lambda -/

/-- C1: for every GlueTables Create invocation that succeeds, the settings
written by the final put have as administrators exactly the union of the
administrators read at the start and the caller-supplied target principals,
so the executing role is absent from the final set unless it was already
among the original administrators or the target principals. -/
theorem gt_success_final_admins_eq_union {ρ : Type} (env : GTEnv ρ) (ev : GTEvent)
    (psIn : List String) (s0 : DataLakeSettings ρ) (tr : List (GTCall ρ))
    (hps : ev.principals = JVal.arr psIn)
    (hset : env.getSettings = Except.ok s0)
    (hrun : gtStartCreate env ev = (Status.success, none, tr)) :
    ∃ final, (gtPuts tr).getLast? = some final ∧
      (∀ x, x ∈ final.admins ↔ (x ∈ s0.admins ∨ x ∈ psIn)) ∧
      (ev.lambdaRoleArn ∉ s0.admins → ev.lambdaRoleArn ∉ psIn →
        ev.lambdaRoleArn ∉ final.admins) := by
  obtain ⟨ps, dbName, s1, hpsok, hdb, hget, htr⟩ := gtStartCreate_success_shape env ev tr hrun
  rw [hset] at hget
  injection hget with hget
  subst hget
  have hps2 := principalsOf_arr ev ps psIn hpsok hps
  subst hps2
  subst htr
  refine ⟨buildDataLakeSettings s0 (jsSetList psIn), ?_, ?_, ?_⟩
  · rw [gtPuts_append, gtPuts_append, gtPuts_map_grant]
    rfl
  · intro x
    simp [buildDataLakeSettings, buildDataLakeAdmins, mem_jsSetList, List.mem_append]
  · intro h1 h2 hmem
    simp [buildDataLakeSettings, buildDataLakeAdmins, mem_jsSetList, List.mem_append] at hmem
    exact hmem.elim h1 h2

@[simp] theorem buildDataLakeSettings_rest {ρ : Type} (s : DataLakeSettings ρ) (ps : List String) :
    (buildDataLakeSettings s ps).rest = s.rest := rfl

/-- C10: every settings object the GlueTables lambda writes, the temporary
self-elevated one and the restored final one alike, agrees with the settings
read at the start of the invocation on every field other than the
administrator list (the rest component of the model). -/
theorem gt_writes_preserve_rest {ρ : Type} (env : GTEnv ρ) (ev : GTEvent)
    (s0 : DataLakeSettings ρ) (res : Status) (err : Option JsErr) (tr : List (GTCall ρ))
    (hset : env.getSettings = Except.ok s0)
    (hrun : gtStartCreate env ev = (res, err, tr)) :
    ∀ s ∈ gtPuts tr, s.rest = s0.rest := by
  unfold gtStartCreate at hrun
  split at hrun
  · simp only [Prod.mk.injEq] at hrun
    obtain ⟨-, -, h3⟩ := hrun
    subst h3
    simp [gtPuts]
  · split at hrun
    · simp only [Prod.mk.injEq] at hrun
      obtain ⟨-, -, h3⟩ := hrun
      subst h3
      simp [gtPuts]
    · split at hrun
      · simp only [Prod.mk.injEq] at hrun
        obtain ⟨-, -, h3⟩ := hrun
        subst h3
        simp [gtPuts]
      · split at hrun
        · simp only [Prod.mk.injEq] at hrun
          obtain ⟨-, -, h3⟩ := hrun
          subst h3
          simp [gtPuts]
        · rename_i existing hget
          rw [hset] at hget
          injection hget with hget
          subst hget
          split at hrun
          · simp only [Prod.mk.injEq] at hrun
            obtain ⟨-, -, h3⟩ := hrun
            subst h3
            intro s hs
            simp [gtPuts] at hs
            subst hs
            rfl
          · split at hrun
            · rename_i e tr4 hloop
              simp only [Prod.mk.injEq] at hrun
              obtain ⟨-, -, h3⟩ := hrun
              subst h3
              have hp := grantLoop_puts env _ _ _ _ _ hloop
              intro s hs
              rw [hp] at hs
              simp [gtPuts] at hs
              subst hs
              rfl
            · rename_i u tr4 hloop
              have hp := grantLoop_puts env _ _ _ _ _ hloop
              split at hrun
              all_goals
                simp only [Prod.mk.injEq] at hrun
                obtain ⟨-, -, h3⟩ := hrun
                subst h3
                intro s hs
                rw [gtPuts_append, hp] at hs
                simp [gtPuts] at hs
                rcases hs with hs | hs
                all_goals subst hs; rfl

/-- C9 counterexample: an invocation whose duplicated principals list meets a
provider failure on the first grant call issues one grant call even though
the input has two distinct principals, so the unconditional claim fails. -/
theorem gt_dup_grants_cex :
    ¬ (["arn:aws:iam::123456789012:role/p1", "arn:aws:iam::123456789012:role/p1",
        "arn:aws:iam::123456789012:role/p2"] : List String).Nodup ∧
    (gtGrants (gtStartCreate
        (⟨Except.ok ["arn:aws:glue:us-west-2:222222222222:database/shared_db"],
          Except.ok ⟨[], ()⟩, fun _ => none,
          fun p => if p = "arn:aws:iam::123456789012:role/p1" then some (JsErr.provider "boom") else none⟩ :
            GTEnv Unit)
        ⟨"arn:aws:ram:us-west-2:111111111111:resource-share/abc",
         JVal.arr ["arn:aws:iam::123456789012:role/p1", "arn:aws:iam::123456789012:role/p1",
                   "arn:aws:iam::123456789012:role/p2"],
         "arn:aws:iam::123456789012:role/lam",
         "arn:aws:cloudformation:us-west-2:123456789012:stack/stack-name/guid"⟩).2.2).length ≠
      (["arn:aws:iam::123456789012:role/p1", "arn:aws:iam::123456789012:role/p1",
        "arn:aws:iam::123456789012:role/p2"] : List String).toFinset.card := by
  constructor
  · decide
  · decide

/-- C9 (amended): for every GlueTables Create invocation whose principals
list contains duplicates and which returns Succeeded, the grant call is
issued exactly once per distinct principal: the number of grant calls equals
the number of distinct principals in the input.  (On a run aborted by a
provider failure only a prefix of the deduplicated list is granted.) -/
theorem gt_success_grants_once_per_distinct {ρ : Type} (env : GTEnv ρ) (ev : GTEvent)
    (psIn : List String) (tr : List (GTCall ρ))
    (hps : ev.principals = JVal.arr psIn)
    (_hdup : ¬ psIn.Nodup)
    (hrun : gtStartCreate env ev = (Status.success, none, tr)) :
    (gtGrants tr).length = psIn.toFinset.card := by
  obtain ⟨ps, dbName, s0, hpsok, hdb, hget, htr⟩ := gtStartCreate_success_shape env ev tr hrun
  have hps2 := principalsOf_arr ev ps psIn hpsok hps
  subst hps2
  subst htr
  rw [gtGrants_append, gtGrants_append, gtGrants_map_grant]
  simp only [gtGrants, List.filterMap, List.length_append, List.nil_append]
  simp [jsSetList_length]

theorem validateIAMPrincipal_err (acct p : String) (e : JsErr)
    (h : validateIAMPrincipal acct p = Except.error e) : ∃ m, e = JsErr.error m := by
  unfold validateIAMPrincipal at h
  split at h
  · simp at h
  · injection h with h
    exact ⟨_, h.symm⟩

theorem validatePrincipalList_err (acct : String) :
    ∀ (l : List String) (e : JsErr),
      validatePrincipalList acct l = Except.error e → ∃ m, e = JsErr.error m := by
  intro l
  induction l with
  | nil => intro e h; simp [validatePrincipalList] at h
  | cons p ps ih =>
    intro e h
    unfold validatePrincipalList at h
    split at h
    · rename_i e2 hv
      injection h with h
      subst h
      exact validateIAMPrincipal_err acct p e2 hv
    · exact ih e h

theorem gtPrincipals_err_shape (ev : GTEvent) (e : JsErr)
    (h : getLakeFormationDataLakePrincipals ev = Except.error e) : ∃ m, e = JsErr.error m := by
  unfold getLakeFormationDataLakePrincipals at h
  split at h
  · rename_i e2 hacct
    injection h with h
    subst h
    unfold getAccountId at hacct
    split at hacct
    · simp at hacct
    · injection hacct with hacct
      exact ⟨_, hacct.symm⟩
  · split at h
    · rename_i e2 hval
      injection h with h
      subst h
      unfold validatePrincipals at hval
      split at hval
      · injection hval with hval
        exact ⟨_, hval.symm⟩
      · exact validatePrincipalList_err _ _ _ hval
    · split at h
      · simp at h
      · injection h with h
        exact ⟨_, h.symm⟩

/-- C7 counterexample: with an empty principals array (and an otherwise
cooperative environment) the create run returns Succeeded and still issues
two settings writes, so the empty-input half of the claim fails. -/
theorem gt_empty_principals_cex :
    (gtStartCreate
        (⟨Except.ok ["arn:aws:glue:us-west-2:222222222222:database/shared_db"],
          Except.ok ⟨[], ()⟩, fun _ => none, fun _ => none⟩ : GTEnv Unit)
        ⟨"arn:aws:ram:us-west-2:111111111111:resource-share/abc", JVal.arr [],
         "arn:aws:iam::123456789012:role/lam",
         "arn:aws:cloudformation:us-west-2:123456789012:stack/stack-name/guid"⟩).1 = Status.success ∧
    (gtPuts (gtStartCreate
        (⟨Except.ok ["arn:aws:glue:us-west-2:222222222222:database/shared_db"],
          Except.ok ⟨[], ()⟩, fun _ => none, fun _ => none⟩ : GTEnv Unit)
        ⟨"arn:aws:ram:us-west-2:111111111111:resource-share/abc", JVal.arr [],
         "arn:aws:iam::123456789012:role/lam",
         "arn:aws:cloudformation:us-west-2:123456789012:stack/stack-name/guid"⟩).2.2).length = 2 := by
  constructor
  · decide
  · decide

/-- C7 (amended): for every GlueTables Create invocation whose principals
input is not a list, the invocation fails with an invalid-input error and
issues no remote call at all, in particular no settings write and no
permission grant.  (An empty list, by contrast, passes validation.) -/
theorem gt_principals_not_array_fails {ρ : Type} (env : GTEnv ρ) (ev : GTEvent)
    (hna : ev.principals = JVal.notArr) :
    ∃ m, gtStartCreate env ev = (Status.failed, some (JsErr.error m), []) := by
  unfold gtStartCreate
  split
  · rename_i e hv
    unfold validateShareArnE at hv
    split at hv
    · simp at hv
    · injection hv with hv
      subst hv
      exact ⟨_, rfl⟩
  · split
    · rename_i e hperr
      obtain ⟨m, hm⟩ := gtPrincipals_err_shape ev e hperr
      subst hm
      exact ⟨m, rfl⟩
    · rename_i ps hpok
      exfalso
      unfold getLakeFormationDataLakePrincipals at hpok
      rw [hna] at hpok
      split at hpok
      · simp at hpok
      · simp [validatePrincipals] at hpok

/- ### Concrete fixtures used by witnesses and counterexamples -/

def dbArnFix : String := "arn:aws:glue:us-west-2:222222222222:database/shared_db"

def shareArnFix : String := "arn:aws:ram:us-west-2:111111111111:resource-share/abc"

def stackIdFix : String := "arn:aws:cloudformation:us-west-2:123456789012:stack/stack-name/guid"

def roleP1 : String := "arn:aws:iam::123456789012:role/p1"

def roleP2 : String := "arn:aws:iam::123456789012:role/p2"

def roleLam : String := "arn:aws:iam::123456789012:role/lam"

def adminA : String := "arn:aws:iam::123456789012:role/admin0"

def gtEnvOk : GTEnv Unit :=
  ⟨Except.ok [dbArnFix], Except.ok ⟨[adminA], ()⟩, fun _ => none, fun _ => none⟩

def gtEvDup : GTEvent := ⟨shareArnFix, JVal.arr [roleP1, roleP1, roleP2], roleLam, stackIdFix⟩

/-- C1 witness: the final-admins theorem applied at a concrete succeeding
invocation. -/
theorem gt_success_final_admins_eq_union_witness :
    ∃ final, (gtPuts (gtStartCreate gtEnvOk gtEvDup).2.2).getLast? = some final ∧
      (∀ x, x ∈ final.admins ↔ (x ∈ [adminA] ∨ x ∈ [roleP1, roleP1, roleP2])) ∧
      (roleLam ∉ [adminA] → roleLam ∉ [roleP1, roleP1, roleP2] → roleLam ∉ final.admins) :=
  gt_success_final_admins_eq_union gtEnvOk gtEvDup [roleP1, roleP1, roleP2] ⟨[adminA], ()⟩
    (gtStartCreate gtEnvOk gtEvDup).2.2 rfl rfl (by decide)

/-- C9 witness: the per-distinct-principal grant count at a concrete
succeeding invocation with a duplicated list. -/
theorem gt_success_grants_once_per_distinct_witness :
    (gtGrants (gtStartCreate gtEnvOk gtEvDup).2.2).length =
      ([roleP1, roleP1, roleP2] : List String).toFinset.card :=
  gt_success_grants_once_per_distinct gtEnvOk gtEvDup [roleP1, roleP1, roleP2]
    (gtStartCreate gtEnvOk gtEvDup).2.2 rfl (by decide) (by decide)

/-- C10 witness: frame preservation at a concrete invocation, instantiated
at the restored final settings written by that run. -/
theorem gt_writes_preserve_rest_witness :
    (buildDataLakeSettings (⟨[adminA], ()⟩ : DataLakeSettings Unit)
      (jsSetList [roleP1, roleP1, roleP2])).rest = () :=
  gt_writes_preserve_rest gtEnvOk gtEvDup ⟨[adminA], ()⟩ Status.success none
    (gtStartCreate gtEnvOk gtEvDup).2.2 rfl (by decide)
    (buildDataLakeSettings ⟨[adminA], ()⟩ (jsSetList [roleP1, roleP1, roleP2])) (by decide)

/-- C7 witness: the non-array rejection at a concrete invocation. -/
theorem gt_principals_not_array_fails_witness :
    ∃ m, gtStartCreate gtEnvOk (⟨shareArnFix, JVal.notArr, roleLam, stackIdFix⟩ : GTEvent) =
      (Status.failed, some (JsErr.error m), []) :=
  gt_principals_not_array_fails gtEnvOk ⟨shareArnFix, JVal.notArr, roleLam, stackIdFix⟩ rfl

/- ### Claim theorems for the ResourceShareAcceptor lambda -/

/-- C2: when the invitation lookup returns an invitation (a non-empty list
whose first entry carries an invitation ARN), the outcome of the create path
is decided by the invitation state: pending issues exactly one accept call
and the already-accepted provider error is downgraded to success; accepted
succeeds with no accept call; expired and rejected fail. -/
theorem sa_invitation_state_decides (env : SAEnv) (arn : String)
    (st : InvStatus) (iarn : String) (rest : List Invitation)
    (harn : matchesResourceShareArn arn = true)
    (hreg : ∃ r, captureShareRegion arn = some r ∧ regionTest r = true)
    (hinv : env.invitations = Except.ok (⟨st, iarn⟩ :: rest))
    (hne : iarn ≠ "") :
    (st = InvStatus.pending →
        acceptCount (saCreate env arn).2.2 = 1 ∧
        ((env.acceptResult = none ∨ env.acceptResult = some JsErr.ramAlreadyAccepted) →
          (saCreate env arn).1 = Status.success)) ∧
    (st = InvStatus.accepted →
        (saCreate env arn).1 = Status.success ∧ acceptCount (saCreate env arn).2.2 = 0) ∧
    (st = InvStatus.expired → (saCreate env arn).1 = Status.failed) ∧
    (st = InvStatus.rejected → (saCreate env arn).1 = Status.failed) := by
  obtain ⟨r, hr, hrt⟩ := hreg
  have hsa : saCreate env arn = handleInvitationRun env st iarn [SACall.getInvitations] := by
    unfold saCreate
    rw [hr, hinv]
    simp [harn, hrt, hne]
  refine ⟨?_, ?_, ?_, ?_⟩
  · intro hst
    subst hst
    constructor
    · rw [hsa]
      simp only [handleInvitationRun]
      split <;> simp [acceptCount]
    · intro hacc
      rw [hsa]
      simp only [handleInvitationRun]
      rcases hacc with h | h <;> rw [h]
  · intro hst
    subst hst
    rw [hsa]
    exact ⟨rfl, rfl⟩
  · intro hst
    subst hst
    rw [hsa]
    exact rfl
  · intro hst
    subst hst
    rw [hsa]
    exact rfl

def saEnvPend : SAEnv := ⟨Except.ok [⟨InvStatus.pending, "ia"⟩], Except.ok [], none⟩

/-- C2 witness: the state-decides theorem at a concrete pending invitation. -/
theorem sa_invitation_state_decides_witness :
    (InvStatus.pending = InvStatus.pending →
        acceptCount (saCreate saEnvPend shareArnFix).2.2 = 1 ∧
        ((saEnvPend.acceptResult = none ∨ saEnvPend.acceptResult = some JsErr.ramAlreadyAccepted) →
          (saCreate saEnvPend shareArnFix).1 = Status.success)) ∧
    (InvStatus.pending = InvStatus.accepted →
        (saCreate saEnvPend shareArnFix).1 = Status.success ∧
        acceptCount (saCreate saEnvPend shareArnFix).2.2 = 0) ∧
    (InvStatus.pending = InvStatus.expired → (saCreate saEnvPend shareArnFix).1 = Status.failed) ∧
    (InvStatus.pending = InvStatus.rejected → (saCreate saEnvPend shareArnFix).1 = Status.failed) :=
  sa_invitation_state_decides saEnvPend shareArnFix InvStatus.pending "ia" [] (by decide)
    ⟨"us-west-2", by decide, by decide⟩ rfl (by decide)

/-- C3: when the invitation lookup returns no invitation, the create path
queries the resource listing of the share: a non-empty listing yields
Succeeded with no accept call, an empty one fails with the
invitation-not-found error. -/
theorem sa_no_invitation_listing_decides (env : SAEnv) (arn : String)
    (harn : matchesResourceShareArn arn = true)
    (hreg : ∃ r, captureShareRegion arn = some r ∧ regionTest r = true)
    (hinv : env.invitations = Except.ok []) :
    (∀ x l, env.resources = Except.ok (x :: l) →
        saCreate env arn = (Status.success, none, [SACall.getInvitations, SACall.listResources])) ∧
    (env.resources = Except.ok [] →
        saCreate env arn = (Status.failed,
          some (JsErr.error "Invalid ResourceShareArn: ResourceShareInvitationArn not found."),
          [SACall.getInvitations, SACall.listResources])) := by
  obtain ⟨r, hr, hrt⟩ := hreg
  have hsa : saCreate env arn = saFallback env [SACall.getInvitations] := by
    unfold saCreate
    rw [hr, hinv]
    simp [harn, hrt]
  constructor
  · intro x l hres
    rw [hsa]
    unfold saFallback
    rw [hres]
    exact rfl
  · intro hres
    rw [hsa]
    unfold saFallback
    rw [hres]
    exact rfl

def saEnvNoInv : SAEnv := ⟨Except.ok [], Except.ok ["r1"], none⟩

/-- C3 witness: the race-path theorem at a concrete environment with no
invitation and a non-empty resource listing. -/
theorem sa_no_invitation_listing_decides_witness :
    (∀ x l, saEnvNoInv.resources = Except.ok (x :: l) →
        saCreate saEnvNoInv shareArnFix =
          (Status.success, none, [SACall.getInvitations, SACall.listResources])) ∧
    (saEnvNoInv.resources = Except.ok [] →
        saCreate saEnvNoInv shareArnFix = (Status.failed,
          some (JsErr.error "Invalid ResourceShareArn: ResourceShareInvitationArn not found."),
          [SACall.getInvitations, SACall.listResources])) :=
  sa_no_invitation_listing_decides saEnvNoInv shareArnFix (by decide)
    ⟨"us-west-2", by decide, by decide⟩ rfl

/- ### Claim theorems for the GlueDatabase lambda -/

theorem createGlueDatabase_ok (env : CDEnv) (dbs dbs2 : List String) (nOpt : Option String)
    (u : Unit) (h : createGlueDatabase env dbs nOpt = (Except.ok u, dbs2)) :
    env.glueOther = none ∧ ∃ n, nOpt = some n ∧ n ∈ dbs2 := by
  unfold createGlueDatabase glueCreateDatabase at h
  cases hg : env.glueOther with
  | some m => rw [hg] at h; simp at h
  | none =>
    rw [hg] at h
    cases nOpt with
    | none => simp at h
    | some n =>
      refine ⟨rfl, n, rfl, ?_⟩
      by_cases hmem : n ∈ dbs
      · simp [hmem] at h
        exact h ▸ hmem
      · simp [hmem] at h
        exact h ▸ List.mem_cons_self n dbs

theorem createGlueDatabase_mem (env : CDEnv) (dbs : List String) (n : String)
    (hg : env.glueOther = none) (hmem : n ∈ dbs) :
    createGlueDatabase env dbs (some n) = (Except.ok (), dbs) := by
  unfold createGlueDatabase glueCreateDatabase
  rw [hg]
  simp [hmem]

theorem getSharedGlueDatabaseArn_ok (env : CDEnv) (a : String)
    (h : getSharedGlueDatabaseArn env = Except.ok a) :
    ∃ rest, env.listDatabases = Except.ok (a :: rest) := by
  unfold getSharedGlueDatabaseArn at h
  split at h
  · simp at h
  · simp at h
  · rename_i x l hl
    injection h with h
    subst h
    exact ⟨l, hl⟩

/-- C4: a second GlueDatabase create invocation with the same inputs, run
from the state a successful first invocation left behind, returns Succeeded
again with the same physical resource id (the database simple name parsed
from the shared database ARN), the provider already-exists error being
downgraded to success. -/
theorem cd_create_idempotent (env : CDEnv) (arn : String) (dbs dbs2 : List String)
    (n : String) (tr : List CDCall)
    (h : cdStartCreate env arn dbs = (Status.success, some n, none, tr, dbs2)) :
    cdStartCreate env arn dbs2 = (Status.success, some n, none, tr, dbs2) ∧
    ∃ a rest acct, env.listDatabases = Except.ok (a :: rest) ∧
      getDatabaseArnParts a = Except.ok (acct, some n) := by
  unfold cdStartCreate at h ⊢
  split at h
  · simp at h
  · rename_i u0 hval
    split at h
    · simp at h
    · rename_i a hlist
      split at h
      · simp at h
      · rename_i pr acct nameOpt hparts
        split at h
        · simp at h
        · rename_i u dbs3 hcreate
          simp only [Prod.mk.injEq] at h
          obtain ⟨-, hn, -, htr, hdbs⟩ := h
          obtain ⟨hg, n2, hn2, hmem⟩ := createGlueDatabase_ok env dbs dbs3 nameOpt u hcreate
          subst hn2
          injection hn with hn
          subst hn
          subst hdbs
          subst htr
          constructor
          · simp only [hval, hlist, hparts, createGlueDatabase_mem env dbs3 n2 hg hmem]
          · obtain ⟨restL, hshape⟩ := getSharedGlueDatabaseArn_ok env a hlist
            exact ⟨a, restL, acct, hshape, hparts⟩

def cdEnvOk : CDEnv := ⟨Except.ok [dbArnFix], none⟩

/-- C4 witness: idempotence at a concrete environment, second run started
from the state the first successful run produced. -/
theorem cd_create_idempotent_witness :
    (cdStartCreate cdEnvOk shareArnFix ["shared_db"] =
      (Status.success, some "shared_db", none,
        [CDCall.listResources, CDCall.createDatabase "222222222222" (some "shared_db")],
        ["shared_db"]) ∧
    ∃ a rest acct, cdEnvOk.listDatabases = Except.ok (a :: rest) ∧
      getDatabaseArnParts a = Except.ok (acct, some "shared_db")) :=
  cd_create_idempotent cdEnvOk shareArnFix [] ["shared_db"] "shared_db"
    [CDCall.listResources, CDCall.createDatabase "222222222222" (some "shared_db")] (by decide)

/- ### Claim theorem C5: malformed ARN fails every component before any
remote call -/

/-- C5: a share ARN that does not match the share-ARN grammar makes the
create path of every one of the four lambdas fail with the invalid-input
error while the remote-call trace stays empty: no listing, invitation,
catalog, permission or parameter call is issued. -/
theorem malformed_arn_fails_before_remote_calls {ρ : Type} (arn : String)
    (h : matchesResourceShareArn arn = false)
    (saEnv : SAEnv) (cdEnv : CDEnv) (dbs : List String)
    (gtEnv : GTEnv ρ) (gtEv : GTEvent) (ppEnv : PPEnv) (ppEv : PPEvent)
    (hgt : gtEv.resourceShareArn = arn) (hpp : ppEv.resourceShareArn = arn) :
    saCreate saEnv arn = (Status.failed, some (JsErr.error "Invalid ResourceShareArn."), []) ∧
    cdStartCreate cdEnv arn dbs =
      (Status.failed, none, some (JsErr.error "Invalid ResourceShareArn."), [], dbs) ∧
    gtStartCreate gtEnv gtEv = (Status.failed, some (JsErr.error "Invalid ResourceShareArn."), []) ∧
    ppCreate ppEnv ppEv = (Status.failed, some (JsErr.error "Invalid ResourceShareArn."), [], []) := by
  refine ⟨?_, ?_, ?_, ?_⟩
  · unfold saCreate
    simp [h]
  · unfold cdStartCreate validateShareArnE
    simp [h]
  · unfold gtStartCreate validateShareArnE
    rw [hgt]
    simp [h]
  · unfold ppCreate
    rw [hpp]
    simp [h]

def saEnvNil : SAEnv := ⟨Except.ok [], Except.ok [], none⟩

def ppEnvNil : PPEnv := ⟨Except.ok [], Except.ok [], fun _ => PutOutcome.ok, none, none⟩

/-- C5 witness: the four components at the malformed ARN bogus. -/
theorem malformed_arn_fails_before_remote_calls_witness :
    saCreate saEnvNil "bogus" =
      (Status.failed, some (JsErr.error "Invalid ResourceShareArn."), []) ∧
    cdStartCreate (⟨Except.ok [], none⟩ : CDEnv) "bogus" [] =
      (Status.failed, none, some (JsErr.error "Invalid ResourceShareArn."), [], []) ∧
    gtStartCreate gtEnvOk (⟨"bogus", JVal.arr [], roleLam, stackIdFix⟩ : GTEvent) =
      (Status.failed, some (JsErr.error "Invalid ResourceShareArn."), []) ∧
    ppCreate ppEnvNil (⟨"bogus", "us-east-1", "my-bucket-1", "sid"⟩ : PPEvent) =
      (Status.failed, some (JsErr.error "Invalid ResourceShareArn."), [], []) :=
  malformed_arn_fails_before_remote_calls "bogus" (by decide) saEnvNil ⟨Except.ok [], none⟩ []
    gtEnvOk ⟨"bogus", JVal.arr [], roleLam, stackIdFix⟩ ppEnvNil
    ⟨"bogus", "us-east-1", "my-bucket-1", "sid"⟩ rfl rfl

/- ### Claim theorems for the SsmParameters lambda -/

theorem savePairs_firstBad_alreadyExists (env : PPEnv) :
    ∀ (pairs : List (String × String)) (tr : List PPCall) (logs : List String) (nm : String),
      firstBadPut env pairs = some (nm, PutOutcome.alreadyExists) →
      ∃ tr2 logs2,
        savePairs env pairs tr logs = (Except.error (JsErr.ssmAlreadyExists nm), tr2, logs2) ∧
        ((∃ sid, env.stackIdParam = some sid ∧
            ∃ pre post, (pre ++ sid ++ post) ∈ logs2) ∨
          env.stackIdParam = none) := by
  intro pairs
  induction pairs with
  | nil =>
    intro tr logs nm h
    simp [firstBadPut] at h
  | cons pv rest ih =>
    obtain ⟨pn, v⟩ := pv
    intro tr logs nm h
    unfold firstBadPut at h
    unfold savePairs saveParameter
    cases hput : env.putResult pn with
    | ok =>
      simp only [hput] at h ⊢
      exact ih _ _ nm h
    | alreadyExists =>
      simp only [hput, Option.some.injEq, Prod.mk.injEq] at h
      obtain ⟨hn, -⟩ := h
      subst hn
      cases hsid : env.stackIdParam with
      | some sid =>
        simp only [hsid]
        refine ⟨_, _, rfl, Or.inl ⟨sid, rfl, ?_⟩⟩
        refine ⟨"SSM Parameter " ++ pn ++ " already exists, another stack with stack ID ",
          " created by this template already exists, please delete it first.", ?_⟩
        simp [alreadyExistsWithStackMsg]
      | none =>
        simp only [hsid]
        exact ⟨_, _, rfl, Or.inr trivial⟩
    | err m =>
      simp [hput] at h

/-- C6: when a parameter write of the create path collides with an existing
parameter of the same name, the invocation fails with the AlreadyExists
error for that name; when the best-effort stack-id lookup finds a value the
logged error message includes that stack id, and when it finds nothing the
failure is still reported. -/
theorem pp_collision_fails_with_already_exists (env : PPEnv) (ev : PPEvent)
    (r dbArn dbn nm : String) (restDbs tblNames : List String)
    (harn : matchesResourceShareArn ev.resourceShareArn = true)
    (hr : captureShareRegion ev.resourceShareArn = some r)
    (hrt : regionTest r = true)
    (hdt : regionTest ev.dtRegion = true)
    (hbk : bucketTest ev.athenaResultsBucket = true)
    (hsi : dotPlusTest ev.stackIdProp = true)
    (hdb : env.listDatabases = Except.ok (dbArn :: restDbs))
    (hcap : captureDatabaseName dbArn = some dbn)
    (htbl : getTableNames env = Except.ok tblNames)
    (hbad : firstBadPut env (ppPairs ev dbn tblNames) = some (nm, PutOutcome.alreadyExists)) :
    (ppCreate env ev).1 = Status.failed ∧
    (ppCreate env ev).2.1 = some (JsErr.ssmAlreadyExists nm) ∧
    ((∃ sid, env.stackIdParam = some sid ∧
        ∃ pre post, (pre ++ sid ++ post) ∈ (ppCreate env ev).2.2.2) ∨
      env.stackIdParam = none) := by
  have hdbn : gtGetDatabaseName env.listDatabases = Except.ok dbn := by
    rw [hdb]
    simp [gtGetDatabaseName, hcap]
  obtain ⟨tr2, logs2, hsp, hlog⟩ := savePairs_firstBad_alreadyExists env
    (ppPairs ev dbn tblNames)
    [PPCall.listResources "glue:database", PPCall.listResources "glue:table"] [] nm hbad
  have hpc : ppCreate env ev = (Status.failed, some (JsErr.ssmAlreadyExists nm), tr2, logs2) := by
    unfold ppCreate
    simp [harn, hr, hrt, hdt, hbk, hsi, hdbn, htbl, hsp]
  refine ⟨by rw [hpc], by rw [hpc], ?_⟩
  rw [hpc]
  exact hlog

def ppEnvColl : PPEnv :=
  ⟨Except.ok [dbArnFix], Except.ok ["arn:aws:glue:us-west-2:222222222222:table/shared_db/t1"],
   fun n => if n = shareArnParamName then PutOutcome.alreadyExists else PutOutcome.ok,
   some "other-stack", none⟩

def ppEvOk : PPEvent := ⟨shareArnFix, "us-east-1", "my-bucket-1", "sid-value"⟩

/-- C6 witness: a concrete collision on the share-ARN parameter with a
discoverable stack id. -/
theorem pp_collision_fails_with_already_exists_witness :
    (ppCreate ppEnvColl ppEvOk).1 = Status.failed ∧
    (ppCreate ppEnvColl ppEvOk).2.1 = some (JsErr.ssmAlreadyExists shareArnParamName) ∧
    ((∃ sid, ppEnvColl.stackIdParam = some sid ∧
        ∃ pre post, (pre ++ sid ++ post) ∈ (ppCreate ppEnvColl ppEvOk).2.2.2) ∨
      ppEnvColl.stackIdParam = none) :=
  pp_collision_fails_with_already_exists ppEnvColl ppEvOk "us-west-2" dbArnFix "shared_db"
    shareArnParamName [] ["t1"] (by decide) (by decide) (by decide) (by decide) (by decide)
    (by decide) rfl (by decide) rfl (by decide)

/-- C8 counterexample: a Delete invocation whose DTRegion fails the region
grammar issues no batch-delete call at all, against the claim that every
Delete invocation issues exactly one. -/
theorem pp_delete_bad_region_cex :
    (ppDelete ppEnvNil (⟨"x", "zz", "x", "x"⟩ : PPEvent)).2.2 = ([] : List PPCall) ∧
    (ppDelete ppEnvNil (⟨"x", "zz", "x", "x"⟩ : PPEvent)).1 = Status.failed := by
  constructor
  · decide
  · decide

/-- C8 (amended): for every Delete invocation whose DTRegion passes the
region grammar, exactly one batch-delete call naming exactly the five fixed
parameter names is issued, regardless of whether Create ever ran, the result
being Succeeded exactly when the provider reports no error and Failed with
the provider error otherwise. -/
theorem pp_delete_single_batch (env : PPEnv) (ev : PPEvent)
    (hdt : regionTest ev.dtRegion = true) :
    (ppDelete env ev).2.2 = [PPCall.deleteParameters ppFiveNames] ∧
    (env.deleteResult = none → (ppDelete env ev).1 = Status.success) ∧
    (∀ e, env.deleteResult = some e →
      (ppDelete env ev).1 = Status.failed ∧ (ppDelete env ev).2.1 = some e) := by
  refine ⟨?_, ?_, ?_⟩
  · cases hres : env.deleteResult with
    | none => unfold ppDelete; simp [hdt, hres]
    | some e => unfold ppDelete; simp [hdt, hres]
  · intro hres
    unfold ppDelete
    simp [hdt, hres]
  · intro e hres
    unfold ppDelete
    simp [hdt, hres]

/-- C8 witness: the delete path at a concrete valid region. -/
theorem pp_delete_single_batch_witness :
    (ppDelete ppEnvNil ppEvOk).2.2 = [PPCall.deleteParameters ppFiveNames] ∧
    (ppEnvNil.deleteResult = none → (ppDelete ppEnvNil ppEvOk).1 = Status.success) ∧
    (∀ e, ppEnvNil.deleteResult = some e →
      (ppDelete ppEnvNil ppEvOk).1 = Status.failed ∧ (ppDelete ppEnvNil ppEvOk).2.1 = some e) :=
  pp_delete_single_batch ppEnvNil ppEvOk (by decide)

end SLI
